import Mathlib

/-!
Verification development for the `goxray/tun` VPN client
(`pkg/client`: `Client.Connect`, `Client.Disconnect`, `Config.apply`,
`xRayLogLevel`, `readerMetrics`, `Client.BytesRead/BytesWritten`).

The Go code is shallowly embedded: every effectful external call
(xray-knife protocol service, xray engine, TUN driver, OS route table,
packet pipe) is represented by the outcome the environment returns for
that call, and each operation issued against the OS or its collaborators
is recorded in an operation trace, in program order.
-/

namespace GoxrayTun

/-- `route.Opts` from `goxray/core/network/route`: an entry handed to the
OS route table. `Routes` hold CIDR strings (`route.Addr` is kept as its
textual CIDR form, which is all the client ever builds). -/
structure RouteOpts where
  ifName : String := ""
  gateway : Option String := none
  routes : List String := []
deriving DecidableEq, Repr

/-- Operations the client issues against the OS / its collaborators,
recorded in program order. -/
inductive Op where
  | engineStart
  | engineClose
  | tunCreate
  | tunUp
  | tunClose
  | routeAdd (opts : RouteOpts)
  | routeDelete (opts : RouteOpts)
  | pipeStart
  | pipeCancel
deriving DecidableEq, Repr

/-- `DefaultRoutesToTUN`: the two halves covering all of IPv4, routed to
the TUN device. -/
def DefaultRoutesToTUN : List String := ["0.0.0.0/1", "128.0.0.0/1"]

/-- The client configuration fields `Connect` reads (`c.cfg` as used by
`Connect`/`Disconnect`): gateway IP (`*net.IP`, nil-able), inbound proxy
address string, and the routes destined for the TUN device. -/
structure ConnCfg where
  gatewayIP : Option String := none
  inboundProxy : String := "127.0.0.1:10808"
  routesToTUN : List String := DefaultRoutesToTUN
deriving DecidableEq, Repr

/-- `Client.xrayToGatewayRoute`: the gateway-exception route
`{Routes: [xSrvIP/32]}`, with `Gateway` set only when the client knows a
gateway IP (the `if gatewayIP != nil` guard collapses into the `Option`). -/
def xrayToGatewayRoute (cfg : ConnCfg) (xSrvIP : String) : RouteOpts :=
  { routes := [xSrvIP ++ "/32"], gateway := cfg.gatewayIP }

/-- The tunnel-route entry added by `Client.setupTunnel`:
`route.Opts{IfName: ifc.Name(), Routes: c.cfg.RoutesToTUN}`. -/
def tunnelRouteOpts (cfg : ConnCfg) (ifcName : String) : RouteOpts :=
  { ifName := ifcName, routes := cfg.routesToTUN }

/-- Outcomes of the external calls made by `Client.createXrayProxy`:
`svc.CreateProtocol(link)`, `protocol.Parse()`,
`protocol.ConvertToGeneralConfig().Address`, `svc.MakeInstance(protocol)`
and `net.ResolveIPAddr("ip", cfg.Address)`. `none` means the call
succeeded; `some e` carries the failing call's error message. -/
structure XrayEnv where
  createProtocolErr : String → Option String
  parseErr : Option String := none
  makeInstanceErr : Option String := none
  cfgAddress : String := ""
  resolveIPErr : Option String := none
  resolvedIP : String := ""

/-- `strings.TrimSpace`: strip leading and trailing whitespace. -/
def trimSpace (s : String) : String :=
  ⟨((s.data.dropWhile Char.isWhitespace).reverse.dropWhile
      Char.isWhitespace).reverse⟩

/-- `Client.createXrayProxy`: trims the link, then runs
protocol-create, parse, make-instance and address resolution in source
order, wrapping each failure with the source's message. On success it
yields the resolved server IP (the value stored into `c.xSrvIP`). -/
def createXrayProxy (env : XrayEnv) (link : String) : Except String String :=
  match env.createProtocolErr (trimSpace link) with
  | some e => .error ("invalid config: protocol create: " ++ e)
  | none =>
    match env.parseErr with
    | some e => .error ("invalid config: parse: " ++ e)
    | none =>
      match env.makeInstanceErr with
      | some e => .error ("make instance: " ++ e)
      | none =>
        match env.resolveIPErr with
        | some e => .error ("xray address not resolvable: " ++ e)
        | none => .ok env.resolvedIP

/-- Outcomes of the external calls made by `Client.Connect` after
`createXrayProxy`: engine start, `tun.New` (yielding the interface name),
`ifc.Up`, the tunnel-routes `Add`, the best-effort exception `Delete`,
and the exception `Add`. -/
structure ConnectEnv where
  xray : XrayEnv
  startErr : Option String := none
  tunNew : Except String String := .ok ""
  tunUpErr : Option String := none
  tunnelRouteAddErr : Option String := none
  excRouteDeleteErr : Option String := none
  excRouteAddErr : Option String := none

/-- `Client.setupTunnel`: create the TUN device, bring it up, then add
the tunnel routes pointing at it; each issued call is recorded. The
result carries the interface name on success. Note that on `Up` or
route-`Add` failure the freshly created device is *not* closed. -/
def setupTunnel (cfg : ConnCfg) (env : ConnectEnv) :
    Except String String × List Op :=
  match env.tunNew with
  | .error e => (.error ("create tun: " ++ e), [Op.tunCreate])
  | .ok ifcName =>
    match env.tunUpErr with
    | some e => (.error ("setup interface: " ++ e), [Op.tunCreate, Op.tunUp])
    | none =>
      match env.tunnelRouteAddErr with
      | some e =>
        (.error ("add route: " ++ e),
         [Op.tunCreate, Op.tunUp, Op.routeAdd (tunnelRouteOpts cfg ifcName)])
      | none =>
        (.ok ifcName,
         [Op.tunCreate, Op.tunUp, Op.routeAdd (tunnelRouteOpts cfg ifcName)])

/-- What one `Client.Connect` call did: its returned error (`none` =
success), the trace of issued operations, and the OS-visible resources
still held when the call returns — whether the engine is running,
whether the TUN device is open, which routes this call installed and
left installed, whether the pipe goroutine runs, and whether
`c.stopTunnel` was set (the client's only "connected" indicator). -/
structure ConnectOutcome where
  result : Option String
  ops : List Op
  engineRunning : Bool
  tunOpen : Bool
  installedRoutes : List RouteOpts
  pipeStarted : Bool
  stopTunnelSet : Bool
deriving DecidableEq, Repr

/-- `Client.Connect`, step for step: `createXrayProxy`, `xInst.Start()`,
`setupTunnel()` (TUN + tunnel routes), best-effort
`routes.Delete(xrayToGatewayRoute)`, `routes.Add(xrayToGatewayRoute)`,
then spawn `pipe.Copy` and set `c.stopTunnel`. Every error return in the
source simply returns the wrapped error with no compensation code, so
the outcome keeps whatever was acquired up to that point. -/
def Connect (cfg : ConnCfg) (env : ConnectEnv) (link : String) :
    ConnectOutcome :=
  match createXrayProxy env.xray link with
  | .error e =>
    { result := some ("create xray core instance: " ++ e), ops := [],
      engineRunning := false, tunOpen := false, installedRoutes := [],
      pipeStarted := false, stopTunnelSet := false }
  | .ok srvIP =>
    match env.startErr with
    | some e =>
      { result := some ("start xray core instance: " ++ e),
        ops := [Op.engineStart],
        engineRunning := false, tunOpen := false, installedRoutes := [],
        pipeStarted := false, stopTunnelSet := false }
    | none =>
      match setupTunnel cfg env with
      | (.error e, tunOps) =>
        { result := some ("setup TUN device: " ++ e),
          ops := Op.engineStart :: tunOps,
          engineRunning := true,
          tunOpen := env.tunNew.toOption.isSome,
          installedRoutes := [],
          pipeStarted := false, stopTunnelSet := false }
      | (.ok ifcName, tunOps) =>
        let excOpts := xrayToGatewayRoute cfg srvIP
        match env.excRouteAddErr with
        | some e =>
          { result := some ("add xray server route exception: " ++ e),
            ops := Op.engineStart :: tunOps
              ++ [Op.routeDelete excOpts, Op.routeAdd excOpts],
            engineRunning := true, tunOpen := true,
            installedRoutes := [tunnelRouteOpts cfg ifcName],
            pipeStarted := false, stopTunnelSet := false }
        | none =>
          { result := none,
            ops := Op.engineStart :: tunOps
              ++ [Op.routeDelete excOpts, Op.routeAdd excOpts, Op.pipeStart],
            engineRunning := true, tunOpen := true,
            installedRoutes := [tunnelRouteOpts cfg ifcName, excOpts],
            pipeStarted := true, stopTunnelSet := true }

/-- An all-success environment used for concrete runs: the link parses,
the engine starts, the TUN comes up as `utun3`, and every route call
succeeds; the remote server resolves to `1.2.3.4`. -/
def envOk : ConnectEnv :=
  { xray := { createProtocolErr := fun _ => none, cfgAddress := "1.2.3.4",
              resolvedIP := "1.2.3.4" },
    tunNew := .ok "utun3" }

/-- A concrete client configuration with a known gateway. -/
def cfgEx : ConnCfg := { gatewayIP := some "192.168.1.1" }

/-! ## Disconnect -/

/-- `disconnectTimeout = 30 * time.Second`, in nanoseconds. -/
def disconnectTimeout : Nat := 30 * 1000000000

/-- The client state `Disconnect` consults: the configuration and the
resolved server IP feeding `xrayToGatewayRoute`, and whether
`c.stopTunnel` is set (non-nil exactly after a successful `Connect`;
`Disconnect` itself never resets it). -/
structure ClientSt where
  cfg : ConnCfg
  xSrvIP : String
  stopTunnelSet : Bool
deriving DecidableEq, Repr

/-- Outcomes of the calls one `Disconnect` makes: the three close/delete
results, the behaviour of the `tunnelStopped` channel during this call
(`some (t, e)`: a receive becomes available `t` nanoseconds in carrying
pipe error `e`; `none`: the channel never delivers, as on any call after
the single pipe result was consumed), and the caller context's remaining
time (`none` for `context.Background()`). -/
structure DisconnectEnv where
  engineCloseErr : Option String := none
  tunCloseErr : Option String := none
  routeDeleteErr : Option String := none
  pipeResult : Option (Nat × Option String) := none
  callerTimeout : Option Nat := none

/-- The deadline `context.WithTimeout(ctx, disconnectTimeout)` arms:
the caller's remaining time capped at `disconnectTimeout`. -/
def effectiveDeadline (env : DisconnectEnv) : Nat :=
  min (env.callerTimeout.getD disconnectTimeout) disconnectTimeout

/-- Whether the `select` takes the `tunnelStopped` arm: the channel
delivers strictly before the deadline fires. (Go resolves a tie between
the two ready arms randomly; the model resolves it to the deadline
arm.) -/
def pipeWins (env : DisconnectEnv) : Bool :=
  match env.pipeResult with
  | some (t, _) => t < effectiveDeadline env
  | none => false

/-- What one `Disconnect` call did: the parts of the joined error in
join order (`[]` = nil return), the issued operations, the client state
afterwards, and the time at which the call returned. -/
structure DisconnectOutcome where
  err : List String
  ops : List Op
  state : ClientSt
  retTime : Nat
deriving DecidableEq, Repr

/-- `Client.Disconnect`: return nil at once when `c.stopTunnel == nil`;
otherwise cancel the pipe context, evaluate all three of
`xInst.Close()`, `tunnel.Close()` and `routes.Delete(exception)`
(Go evaluates every argument of `errors.Join` unconditionally), join
their errors, then `select` on `tunnelStopped` versus the capped
deadline, joining the received pipe error or `ctx.Err()` in front. The
state — in particular `stopTunnel` — is left untouched. -/
def Disconnect (st : ClientSt) (env : DisconnectEnv) : DisconnectOutcome :=
  if st.stopTunnelSet = false then
    { err := [], ops := [], state := st, retTime := 0 }
  else
    let closeErrs := env.engineCloseErr.toList ++ env.tunCloseErr.toList
      ++ env.routeDeleteErr.toList
    let excOpts := xrayToGatewayRoute st.cfg st.xSrvIP
    let teardown := [Op.pipeCancel, Op.engineClose, Op.tunClose,
      Op.routeDelete excOpts]
    if pipeWins env = true then
      match env.pipeResult with
      | some (t, pipeErr) =>
        { err := pipeErr.toList ++ closeErrs, ops := teardown,
          state := st, retTime := t }
      | none =>
        { err := closeErrs, ops := teardown, state := st, retTime := 0 }
    else
      { err := "context deadline exceeded" :: closeErrs, ops := teardown,
        state := st, retTime := effectiveDeadline env }

/-! ## Engine log severity (`xRayLogLevel`) -/

/-- `slog` levels (`slog.LevelDebug` … `slog.LevelError`). -/
def LevelDebug : Int := -4

/-- `slog.LevelInfo`. -/
def LevelInfo : Int := 0

/-- `slog.LevelWarn`. -/
def LevelWarn : Int := 4

/-- `slog.LevelError`. -/
def LevelError : Int := 8

/-- A standard `slog.Handler` characterised by its minimum enabled
level: `Enabled(l)` holds iff `minLevel ≤ l` (the behaviour of
`slog.HandlerOptions.Level` based handlers such as `slog.TextHandler`). -/
structure Handler where
  minLevel : Int
deriving DecidableEq, Repr

/-- `h.Enabled(ctx, l)` for a minimum-level handler. -/
def Handler.Enabled (h : Handler) (l : Int) : Bool :=
  decide (h.minLevel ≤ l)

/-- `xcommlog.Severity` values used by `xRayLogLevel`. -/
inductive Severity where
  | Unknown
  | Error
  | Warning
  | Info
  | Debug
deriving DecidableEq, Repr

/-- `xRayLogLevel`: the source's switch, in source order — note that the
`Error` check precedes the `Warn` check. -/
def xRayLogLevel (h : Handler) : Severity :=
  if h.Enabled LevelDebug then Severity.Debug
  else if h.Enabled LevelInfo then Severity.Info
  else if h.Enabled LevelError then Severity.Error
  else if h.Enabled LevelWarn then Severity.Warning
  else Severity.Unknown

/-! ## Config overlay (`Config.apply`, `NewClientWithOpts`) -/

/-- The `Proxy` struct (`{IP, Port}`). -/
structure Proxy where
  ip : String
  port : Int
deriving DecidableEq, Repr

/-- `DebugOptions` (zero value = all fields zero, matching
`DebugOptions{}` in Go; durations in nanoseconds). -/
structure DebugOptions where
  outputDir : String := ""
  resourceInterval : Int := 0
  gatewayInterval : Int := 0
  enableNetlink : Bool := false
  verbosePipe : Bool := false
  profileInterval : Int := 0
  cpuProfileDuration : Int := 0
  collectCPUProfile : Bool := false
deriving DecidableEq, Repr

/-- The `Config` struct. Pointer/slice fields are `Option` (nil-able);
`logger` stands for the `*slog.Logger` as its handler; `xRayLogType` is
the `xapplog.LogType` enum with `LogType_None = 0`. -/
structure Config where
  gatewayIP : Option String := none
  inboundProxy : Option Proxy := none
  tunAddress : Option String := none
  routesToTUN : Option (List String) := none
  tlsAllowInsecure : Bool := false
  logger : Option Handler := none
  xRayLogType : Int := 0
  debug : Bool := false
  debugOptions : DebugOptions := {}
deriving DecidableEq, Repr

/-- Guard `if new.GatewayIP != nil { c.GatewayIP = new.GatewayIP }`. -/
def applyGatewayIP (new c : Config) : Config :=
  if new.gatewayIP.isSome then { c with gatewayIP := new.gatewayIP } else c

/-- Guard `if new.InboundProxy != nil { ... }`. -/
def applyInboundProxy (new c : Config) : Config :=
  if new.inboundProxy.isSome then { c with inboundProxy := new.inboundProxy } else c

/-- Guard `if new.TUNAddress != nil { ... }`. -/
def applyTUNAddress (new c : Config) : Config :=
  if new.tunAddress.isSome then { c with tunAddress := new.tunAddress } else c

/-- Guard `if new.Logger != nil { ... }`. -/
def applyLogger (new c : Config) : Config :=
  if new.logger.isSome then { c with logger := new.logger } else c

/-- Guard `if new.RoutesToTUN != nil { ... }`. -/
def applyRoutesToTUN (new c : Config) : Config :=
  if new.routesToTUN.isSome then { c with routesToTUN := new.routesToTUN } else c

/-- Guard `if new.XRayLogType != xapplog.LogType_None { ... }`. -/
def applyXRayLogType (new c : Config) : Config :=
  if new.xRayLogType ≠ 0 then { c with xRayLogType := new.xRayLogType } else c

/-- Guard `if new.Debug { c.Debug = true }`. -/
def applyDebug (new c : Config) : Config :=
  if new.debug then { c with debug := true } else c

/-- Guard `if new.DebugOptions != (DebugOptions{}) { ... }`. -/
def applyDebugOptions (new c : Config) : Config :=
  if new.debugOptions ≠ ({} : DebugOptions) then { c with debugOptions := new.debugOptions } else c

/-- `Config.apply`: overlay `new` onto `c`, guard after guard in source
order (GatewayIP, InboundProxy, TUNAddress, Logger, RoutesToTUN,
XRayLogType, Debug, DebugOptions). The source has no guard for
`TLSAllowInsecure`. -/
def Config.apply (c new : Config) : Config :=
  applyDebugOptions new (applyDebug new (applyXRayLogType new
    (applyRoutesToTUN new (applyLogger new (applyTUNAddress new
      (applyInboundProxy new (applyGatewayIP new c)))))))

/-- `defaultDebugOptions()`. -/
def defaultDebugOptions : DebugOptions :=
  { outputDir := "debug-output",
    resourceInterval := 5 * 1000000000,
    gatewayInterval := 3 * 1000000000,
    profileInterval := 30 * 1000000000,
    cpuProfileDuration := 30 * 1000000000,
    enableNetlink := true,
    verbosePipe := true,
    collectCPUProfile := true }

/-- `DebugOptions.normalized`. -/
def DebugOptions.normalized (o : DebugOptions) : DebugOptions :=
  let o := if o.outputDir = "" then { o with outputDir := "debug-output" } else o
  let o := if o.resourceInterval ≤ 0 then { o with resourceInterval := 5 * 1000000000 } else o
  let o := if o.gatewayInterval ≤ 0 then { o with gatewayInterval := 3 * 1000000000 } else o
  let o := if o.profileInterval ≤ 0 then { o with profileInterval := 30 * 1000000000 } else o
  let o := if o.cpuProfileDuration ≤ 0 then { o with cpuProfileDuration := 30 * 1000000000 } else o
  o

/-- The configuration `NewClient` builds: discovered gateway, default
inbound proxy, default TUN address, default routes and logger,
`defaultDebugOptions` — and the `Config` zero value everywhere else
(`TLSAllowInsecure` in particular is false). `syncDebugState` then
normalizes `DebugOptions`. -/
def newClientConfig (gatewayIP : String) (proxyPort : Int) : Config :=
  let cfg : Config :=
    { gatewayIP := some gatewayIP,
      inboundProxy := some { ip := "127.0.0.1", port := proxyPort },
      tunAddress := some "192.18.0.1/32",
      routesToTUN := some DefaultRoutesToTUN,
      logger := some { minLevel := LevelInfo },
      debugOptions := defaultDebugOptions }
  { cfg with debugOptions := cfg.debugOptions.normalized }

/-- `NewClientWithOpts(cfg)`: build the default client, then
`client.cfg.apply(&cfg)` followed by `syncDebugState`'s normalization of
`DebugOptions`; the result is the client's effective configuration. -/
def NewClientWithOpts (gatewayIP : String) (proxyPort : Int) (cfg : Config) :
    Config :=
  let c := (newClientConfig gatewayIP proxyPort).apply cfg
  { c with debugOptions := c.debugOptions.normalized }

/-! ## Byte metrics (`readerMetrics`, `atomicTime`) -/

/-- Signed 64-bit wraparound: the value an `atomic.Int64` holds after
unchecked addition (the numerals are `2^63` and `2^64`). -/
def wrap64 (x : Int) : Int :=
  (x + 9223372036854775808) % 18446744073709551616 - 9223372036854775808

/-- A `time.Time` as seen by `atomicTime`: `none` for the zero time,
`some n` for a non-zero time with `UnixNano() = n`. -/
abbrev GoTime := Option Int

/-- `atomicTime.Store`: the zero time is stored as `0`, any other time
as its `UnixNano`. -/
def atomicTimeStore : GoTime → Int
  | none => 0
  | some n => n

/-- `atomicTime.Load`: `0` decodes to the zero time. -/
def atomicTimeLoad (n : Int) : GoTime :=
  if n = 0 then none else some n

/-- `readerMetrics` state: the two `atomic.Int64` byte counters and the
two `atomicTime` raw values. -/
structure ReaderMetrics where
  nRead : Int := 0
  nWritten : Int := 0
  lastRead : Int := 0
  lastWrite : Int := 0
deriving DecidableEq, Repr

/-- `newReaderMetrics`: zero counters and zero timestamps. -/
def newReaderMetrics : ReaderMetrics := {}

/-- `readerMetrics.Read`, state part: the wrapped stream returned
`(n, err)` at time `now`; only on `err == nil` is the counter bumped by
`n` and the read timestamp stored (`n` is a byte count, hence a `Nat`,
per the `io.Reader` contract). -/
def ReaderMetrics.read (s : ReaderMetrics) (n : Nat) (err : Option String)
    (now : GoTime) : ReaderMetrics :=
  if err = none then
    { s with nRead := wrap64 (s.nRead + n), lastRead := atomicTimeStore now }
  else s

/-- `readerMetrics.Write`, state part. -/
def ReaderMetrics.write (s : ReaderMetrics) (n : Nat) (err : Option String)
    (now : GoTime) : ReaderMetrics :=
  if err = none then
    { s with nWritten := wrap64 (s.nWritten + n),
             lastWrite := atomicTimeStore now }
  else s

/-- One I/O call on the wrapped tunnel during a session: what the
underlying stream returned and when. -/
inductive IOEvent where
  | read (n : Nat) (err : Option String) (now : GoTime)
  | write (n : Nat) (err : Option String) (now : GoTime)
deriving DecidableEq, Repr

/-- Apply one I/O call to the metrics state. -/
def metricsStep (s : ReaderMetrics) : IOEvent → ReaderMetrics
  | IOEvent.read n err now => s.read n err now
  | IOEvent.write n err now => s.write n err now

/-- Run a whole session's worth of I/O calls. -/
def runEvents (s : ReaderMetrics) (es : List IOEvent) : ReaderMetrics :=
  es.foldl metricsStep s

/-- Total bytes the trace claims to have read (an upper bound on the
counter movement). -/
def totalRead : List IOEvent → Nat
  | [] => 0
  | IOEvent.read n _ _ :: es => n + totalRead es
  | IOEvent.write _ _ _ :: es => totalRead es

/-- Total bytes the trace claims to have written. -/
def totalWrite : List IOEvent → Nat
  | [] => 0
  | IOEvent.read _ _ _ :: es => totalWrite es
  | IOEvent.write n _ _ :: es => n + totalWrite es

/-- `readerMetrics.BytesRead` (`int` and `int64` coincide here). -/
def ReaderMetrics.bytesRead (s : ReaderMetrics) : Int := s.nRead

/-- `readerMetrics.BytesWritten`. -/
def ReaderMetrics.bytesWritten (s : ReaderMetrics) : Int := s.nWritten

/-- The part of `Client` that `Client.BytesRead`/`BytesWritten` look at:
`c.tunnel`, which is nil until a successful `setupTunnel` wraps it. -/
structure ClientTun where
  tunnel : Option ReaderMetrics
deriving DecidableEq, Repr

/-- `Client.BytesRead`: `0` when `c.tunnel == nil`, else the wrapped
counter. -/
def ClientTun.BytesRead (c : ClientTun) : Int :=
  match c.tunnel with
  | none => 0
  | some m => m.bytesRead

/-- `Client.BytesWritten`. -/
def ClientTun.BytesWritten (c : ClientTun) : Int :=
  match c.tunnel with
  | none => 0
  | some m => m.bytesWritten

/-! ## Error-message containment -/

/-- `s` contains `sub` as a contiguous substring (the check
`require.ErrorContains` performs on `err.Error()`). -/
def containsSubstr (s sub : String) : Prop :=
  ∃ pre post : List Char, s.data = pre ++ sub.data ++ post

/-! ## Concrete scenarios -/

/-- `envOk` except that adding the gateway-exception route fails
(`EPERM` from the OS). -/
def envFailExc : ConnectEnv := { envOk with excRouteAddErr := some "eperm" }

/-- The client state right after a successful `Connect` under `envOk`:
`stopTunnel` is set and the server IP resolved to `1.2.3.4`. -/
def stConnected : ClientSt :=
  { cfg := cfgEx, xSrvIP := "1.2.3.4", stopTunnelSet := true }

/-- First `Disconnect`: every close succeeds and the pipe reports nil
immediately on `tunnelStopped`. -/
def denvFirst : DisconnectEnv := { pipeResult := some (0, none) }

/-- A later `Disconnect`: the single-shot `tunnelStopped` channel never
delivers again. -/
def denvSecond : DisconnectEnv := {}

/-- Scenario S6: all three closes fail and the pipe hands back an
error. -/
def denvAllFail : DisconnectEnv :=
  { engineCloseErr := some "instance close err",
    tunCloseErr := some "tun close err",
    routeDeleteErr := some "route delete err",
    pipeResult := some (0, some "stop err") }

/-- Scenario S5: the caller passes a 10ms deadline and the pipe never
signals. -/
def denvDeadline : DisconnectEnv := { callerTimeout := some 10000000 }

/-- The external protocol service rejecting the structurally malformed
link `invalid_link` at `CreateProtocol` (behaviour of xray-knife pinned
by the repository's own test). -/
def envInvalidLink : ConnectEnv :=
  { xray := { createProtocolErr := fun l =>
      if l = "invalid_link" then some "invalid protocol" else none } }

/-- The external protocol service accepting `vless://example.com`
structurally but failing `Parse` on the missing port (behaviour pinned
by the repository's own test). -/
def envNoPort : ConnectEnv :=
  { xray := { createProtocolErr := fun _ => none,
              parseErr := some "port empty" } }

/-! ## Helper lemmas -/

/-- None of the eight guards of `Config.apply` touches
`tlsAllowInsecure`. -/
theorem applyStep_tls (new c : Config) :
    (applyGatewayIP new c).tlsAllowInsecure = c.tlsAllowInsecure ∧
    (applyInboundProxy new c).tlsAllowInsecure = c.tlsAllowInsecure ∧
    (applyTUNAddress new c).tlsAllowInsecure = c.tlsAllowInsecure ∧
    (applyLogger new c).tlsAllowInsecure = c.tlsAllowInsecure ∧
    (applyRoutesToTUN new c).tlsAllowInsecure = c.tlsAllowInsecure ∧
    (applyXRayLogType new c).tlsAllowInsecure = c.tlsAllowInsecure ∧
    (applyDebug new c).tlsAllowInsecure = c.tlsAllowInsecure ∧
    (applyDebugOptions new c).tlsAllowInsecure = c.tlsAllowInsecure := by
  unfold applyGatewayIP applyInboundProxy applyTUNAddress applyLogger
    applyRoutesToTUN applyXRayLogType applyDebug applyDebugOptions
  refine ⟨?_, ?_, ?_, ?_, ?_, ?_, ?_, ?_⟩ <;> (split <;> rfl)

/-- `Config.apply` copies no value into `tlsAllowInsecure`: none of its
guards mentions the field. -/
theorem apply_preserves_tls (c new : Config) :
    (c.apply new).tlsAllowInsecure = c.tlsAllowInsecure := by
  unfold Config.apply
  rw [(applyStep_tls new _).2.2.2.2.2.2.2, (applyStep_tls new _).2.2.2.2.2.2.1,
    (applyStep_tls new _).2.2.2.2.2.1, (applyStep_tls new _).2.2.2.2.1,
    (applyStep_tls new _).2.2.2.1, (applyStep_tls new _).2.2.1,
    (applyStep_tls new _).2.1, (applyStep_tls new _).1]

/-- `wrap64` is the identity inside the `int64` range. -/
theorem wrap64_eq_self {x : Int} (h1 : -9223372036854775808 ≤ x)
    (h2 : x < 9223372036854775808) : wrap64 x = x := by
  unfold wrap64
  rw [Int.emod_eq_of_lt (by omega) (by omega)]
  omega

/-- If `a` occurs in `l₁` and `b` does not, then any prefix of
`l₁ ++ l₂` containing `b` also contains `a`. -/
theorem mem_take_of_mem_left {α : Type} (l₁ l₂ : List α) (a b : α)
    (n : Nat) (ha : a ∈ l₁) (hb : b ∉ l₁) (h : b ∈ (l₁ ++ l₂).take n) :
    a ∈ (l₁ ++ l₂).take n := by
  rw [List.take_append_eq_append_take] at h ⊢
  rcases List.mem_append.1 h with h1 | h2
  · exact absurd (List.mem_of_mem_take h1) hb
  · have hlen : l₁.length ≤ n := by
      by_contra hlt
      have hz : n - l₁.length = 0 := by omega
      rw [hz] at h2
      simp at h2
    rw [List.take_of_length_le hlen]
    exact List.mem_append.2 (Or.inl ha)

/-- `createXrayProxy` either fails or yields the resolved server IP. -/
theorem createXrayProxy_cases (env : XrayEnv) (link : String) :
    (∃ msg, createXrayProxy env link = Except.error msg) ∨
    createXrayProxy env link = Except.ok env.resolvedIP := by
  unfold createXrayProxy
  rcases hcp : env.createProtocolErr (trimSpace link) with _ | e
  · rcases hp : env.parseErr with _ | e
    · rcases hm : env.makeInstanceErr with _ | e
      · rcases hr : env.resolveIPErr with _ | e
        · right; rfl
        · left; exact ⟨_, rfl⟩
      · left; exact ⟨_, rfl⟩
    · left; exact ⟨_, rfl⟩
  · left; exact ⟨_, rfl⟩

/-- The possible results of `setupTunnel`, with the operation trace each
produces. -/
theorem setupTunnel_cases (cfg : ConnCfg) (env : ConnectEnv) :
    (∃ msg tunOps, setupTunnel cfg env = (Except.error msg, tunOps) ∧
      (tunOps = [Op.tunCreate] ∨ tunOps = [Op.tunCreate, Op.tunUp] ∨
       ∃ name, env.tunNew = Except.ok name ∧
         tunOps = [Op.tunCreate, Op.tunUp,
           Op.routeAdd (tunnelRouteOpts cfg name)])) ∨
    (∃ name, env.tunNew = Except.ok name ∧
      setupTunnel cfg env = (Except.ok name, [Op.tunCreate, Op.tunUp,
        Op.routeAdd (tunnelRouteOpts cfg name)])) := by
  unfold setupTunnel
  rcases htn : env.tunNew with e | name
  · left; exact ⟨_, _, rfl, Or.inl rfl⟩
  · rcases hup : env.tunUpErr with _ | e
    · rcases hra : env.tunnelRouteAddErr with _ | e
      · right; exact ⟨name, rfl, rfl⟩
      · left; exact ⟨_, _, rfl, Or.inr (Or.inr ⟨name, rfl, rfl⟩)⟩
    · left; exact ⟨_, _, rfl, Or.inr (Or.inl rfl)⟩

/-! ## Claim theorems -/

/-- Claim C7 (code bug): the source's `switch` checks
`Enabled(LevelError)` before `Enabled(LevelWarn)`, so a handler whose
minimum enabled level is warn yields `Severity_Error`, not
`Severity_Warning` as the spec's mapping says — and for minimum-level
handlers the `Warning` branch is unreachable altogether. -/
theorem xRayLogLevel_warn_handler_yields_error :
    xRayLogLevel { minLevel := LevelWarn } = Severity.Error ∧
    ∀ h : Handler, xRayLogLevel h ≠ Severity.Warning := by
  constructor
  · decide
  · intro h hc
    simp only [xRayLogLevel, Handler.Enabled, LevelDebug, LevelInfo,
      LevelWarn, LevelError] at hc
    split_ifs at hc with h1 h2 h3 h4
    all_goals simp_all
    omega

/-- Claim C8 (code bug): `Config.apply` has no branch for
`TLSAllowInsecure`, so `NewClientWithOpts` on a `Config` with
`TLSAllowInsecure = true` yields an effective configuration in which the
flag is still false — for every supplied `Config`, the effective flag
equals the default `false`. -/
theorem newClientWithOpts_drops_tlsAllowInsecure :
    (NewClientWithOpts "192.168.1.1" 10808
        { tlsAllowInsecure := true }).tlsAllowInsecure = false ∧
    ∀ (gw : String) (port : Int) (cfg : Config),
      (NewClientWithOpts gw port cfg).tlsAllowInsecure = false := by
  have hall : ∀ (gw : String) (port : Int) (cfg : Config),
      (NewClientWithOpts gw port cfg).tlsAllowInsecure = false := by
    intro gw port cfg
    show ((newClientConfig gw port).apply cfg).tlsAllowInsecure = false
    rw [apply_preserves_tls]
    rfl
  exact ⟨hall _ _ _, hall⟩

/-- Claim C10 (confirmed): `BytesRead` and `BytesWritten` on a client
whose tunnel handle is nil return `0` instead of failing. -/
theorem bytes_counters_zero_when_never_connected (c : ClientTun)
    (h : c.tunnel = none) : c.BytesRead = 0 ∧ c.BytesWritten = 0 := by
  simp [ClientTun.BytesRead, ClientTun.BytesWritten, h]

/-- Witness for C10 at the freshly constructed client. -/
theorem bytes_counters_zero_when_never_connected_witness :
    (ClientTun.mk none).BytesRead = 0 ∧
    (ClientTun.mk none).BytesWritten = 0 :=
  bytes_counters_zero_when_never_connected ⟨none⟩ rfl

/-- Claim C3 (counterexample): after a successful `Connect` (which sets
`stopTunnel`) and a clean first `Disconnect`, a second `Disconnect`
does not return success immediately — it issues the teardown
operations again and, the single-shot `tunnelStopped` channel never
delivering twice, returns a deadline error. -/
theorem disconnect_second_call_works_cex :
    (Connect cfgEx envOk "vless://u@h:443").stopTunnelSet = true ∧
    (Disconnect stConnected denvFirst).err = [] ∧
    Op.engineClose ∈
      (Disconnect (Disconnect stConnected denvFirst).state denvSecond).ops ∧
    (Disconnect (Disconnect stConnected denvFirst).state denvSecond).err
      ≠ [] := by
  decide

/-- Claim C3 (amended): `Disconnect` returns success immediately with
no work only when the client never connected (`stopTunnel` nil); it
never resets the client state, so every call on a connected client —
first or subsequent — performs the full teardown again. -/
theorem disconnect_never_resets_connected_state (st : ClientSt)
    (env : DisconnectEnv) :
    (Disconnect st env).state = st ∧
    ((Disconnect st env).ops =
      if st.stopTunnelSet then
        [Op.pipeCancel, Op.engineClose, Op.tunClose,
         Op.routeDelete (xrayToGatewayRoute st.cfg st.xSrvIP)]
      else []) := by
  unfold Disconnect
  rcases hst : st.stopTunnelSet with _ | _
  · simp [hst]
  · rcases hp : env.pipeResult with _ | ⟨t, e⟩
    · simp [hst, pipeWins, hp]
    · by_cases hw : t < effectiveDeadline env
      · simp [hst, pipeWins, hp, hw]
      · simp [hst, pipeWins, hp, hw]

/-- Claim C4 (confirmed): on a connected client `Disconnect` issues all
of engine close, tunnel close and exception-route delete regardless of
their results, and every error they return — plus the pipe error when
one is received on `tunnelStopped` — is part of the joined error it
returns. -/
theorem disconnect_attempts_all_closes_and_joins_errors
    (st : ClientSt) (env : DisconnectEnv)
    (hst : st.stopTunnelSet = true) :
    Op.engineClose ∈ (Disconnect st env).ops ∧
    Op.tunClose ∈ (Disconnect st env).ops ∧
    Op.routeDelete (xrayToGatewayRoute st.cfg st.xSrvIP)
      ∈ (Disconnect st env).ops ∧
    (∀ e, env.engineCloseErr = some e → e ∈ (Disconnect st env).err) ∧
    (∀ e, env.tunCloseErr = some e → e ∈ (Disconnect st env).err) ∧
    (∀ e, env.routeDeleteErr = some e → e ∈ (Disconnect st env).err) ∧
    (∀ t e, env.pipeResult = some (t, some e) → pipeWins env = true →
      e ∈ (Disconnect st env).err) := by
  unfold Disconnect
  rcases hp : env.pipeResult with _ | ⟨t, pe⟩
  · refine ⟨?_, ?_, ?_, ?_, ?_, ?_, ?_⟩ <;>
      simp [hst, pipeWins, hp] <;> (intros; simp_all)
  · by_cases hw : t < effectiveDeadline env <;>
      refine ⟨?_, ?_, ?_, ?_, ?_, ?_, ?_⟩ <;>
        simp [hst, pipeWins, hp, hw] <;> (intros; simp_all)

/-- Witness for C4, scenario S6: all three closes fail and the pipe
reports an error; all four messages appear in the joined error. -/
theorem disconnect_attempts_all_closes_and_joins_errors_witness :
    stConnected.stopTunnelSet = true ∧
    "instance close err" ∈ (Disconnect stConnected denvAllFail).err ∧
    "tun close err" ∈ (Disconnect stConnected denvAllFail).err ∧
    "route delete err" ∈ (Disconnect stConnected denvAllFail).err ∧
    "stop err" ∈ (Disconnect stConnected denvAllFail).err := by
  have h := disconnect_attempts_all_closes_and_joins_errors stConnected
    denvAllFail rfl
  exact ⟨rfl, h.2.2.2.1 _ rfl, h.2.2.2.2.1 _ rfl, h.2.2.2.2.2.1 _ rfl,
    h.2.2.2.2.2.2 0 _ rfl (by decide)⟩

/-- Claim C5 (confirmed): `Disconnect` arms `min(caller, 30s)` as its
deadline; when the deadline fires before the pipe signals, it returns
the deadline error joined in front of the close errors, at the deadline
itself — it does not keep waiting for the pipe. -/
theorem disconnect_deadline_min_caller_30s
    (st : ClientSt) (env : DisconnectEnv)
    (hst : st.stopTunnelSet = true) :
    (∀ d, env.callerTimeout = some d →
      effectiveDeadline env = min d disconnectTimeout) ∧
    (env.callerTimeout = none →
      effectiveDeadline env = disconnectTimeout) ∧
    (pipeWins env = false →
      (Disconnect st env).err =
        "context deadline exceeded" ::
          (env.engineCloseErr.toList ++ env.tunCloseErr.toList ++
            env.routeDeleteErr.toList) ∧
      (Disconnect st env).retTime = effectiveDeadline env) := by
  refine ⟨?_, ?_, ?_⟩
  · intro d hd; simp [effectiveDeadline, hd]
  · intro hd; simp [effectiveDeadline, hd, disconnectTimeout]
  · intro hw
    unfold Disconnect
    simp [hst, hw]

/-- Witness for C5, scenario S5: a 10ms caller deadline with a silent
pipe; the deadline error is returned at `min(10ms, 30s)`. -/
theorem disconnect_deadline_min_caller_30s_witness :
    stConnected.stopTunnelSet = true ∧
    effectiveDeadline denvDeadline = min 10000000 disconnectTimeout ∧
    (Disconnect stConnected denvDeadline).err =
      ["context deadline exceeded"] ∧
    (Disconnect stConnected denvDeadline).retTime =
      effectiveDeadline denvDeadline := by
  have h := disconnect_deadline_min_caller_30s stConnected denvDeadline rfl
  refine ⟨rfl, h.1 _ rfl, ?_, (h.2.2 (by decide)).2⟩
  have h2 := (h.2.2 (by decide)).1
  simpa using h2

/-- Claim C1 (counterexample): in a fully successful `Connect` run,
after the first four operations the tunnel routes have been added while
the gateway-exception route has not — the code installs the tunnel
routes (inside `setupTunnel`) before the exception route. -/
theorem connect_adds_tunnel_routes_first_cex :
    Op.routeAdd (tunnelRouteOpts cfgEx "utun3")
      ∈ (Connect cfgEx envOk "vless://u@h:443").ops.take 4 ∧
    Op.routeAdd (xrayToGatewayRoute cfgEx "1.2.3.4")
      ∉ (Connect cfgEx envOk "vless://u@h:443").ops.take 4 := by
  decide

/-- Claim C1 (amended): the order is the reverse of the claim — in
every execution of `Connect` there is no point at which the
gateway-exception route has been added while the tunnel routes have
not: any prefix of the operation trace containing the exception-route
add also contains the tunnel-routes add. -/
theorem connect_tunnel_routes_precede_exception
    (cfg : ConnCfg) (env : ConnectEnv) (link : String) (n : Nat)
    (h : Op.routeAdd (xrayToGatewayRoute cfg env.xray.resolvedIP)
          ∈ ((Connect cfg env link).ops.take n)) :
    ∃ ifcName, env.tunNew = Except.ok ifcName ∧
      Op.routeAdd (tunnelRouteOpts cfg ifcName)
        ∈ ((Connect cfg env link).ops.take n) := by
  rcases createXrayProxy_cases env.xray link with ⟨msg, hx⟩ | hx
  · simp [Connect, hx] at h
  · rcases hs : env.startErr with _ | e
    · rcases setupTunnel_cases cfg env with
        ⟨msg, tunOps, hst, hops⟩ | ⟨name, hname, hst⟩
      · simp only [Connect, hx, hs, hst] at h
        rcases hops with h1 | h1 | ⟨name, hname, h1⟩
        · rw [h1] at h
          have h' := List.mem_of_mem_take h
          simp at h'
        · rw [h1] at h
          have h' := List.mem_of_mem_take h
          simp at h'
        · rw [h1] at h
          have h' := List.mem_of_mem_take h
          simp only [List.mem_cons, List.not_mem_nil, or_false] at h'
          rcases h' with h' | h' | h' | h'
          · exact absurd h' (by simp)
          · exact absurd h' (by simp)
          · exact absurd h' (by simp)
          · have hET : xrayToGatewayRoute cfg env.xray.resolvedIP =
                tunnelRouteOpts cfg name := Op.routeAdd.inj h'
            rw [hET] at h
            exact ⟨name, hname, by simpa [Connect, hx, hs, hst, h1] using h⟩
      · have hshape : (Connect cfg env link).ops =
            [Op.engineStart, Op.tunCreate, Op.tunUp,
             Op.routeAdd (tunnelRouteOpts cfg name)] ++
            ((Connect cfg env link).ops.drop 4) := by
          rcases hexc : env.excRouteAddErr with _ | e <;>
            simp [Connect, hx, hs, hst, hexc]
        rw [hshape] at h ⊢
        by_cases hET : xrayToGatewayRoute cfg env.xray.resolvedIP =
            tunnelRouteOpts cfg name
        · rw [hET] at h
          exact ⟨name, hname, h⟩
        · refine ⟨name, hname,
            mem_take_of_mem_left _ _ _ _ n (by simp) (by simp [hET]) h⟩
    · simp only [Connect, hx, hs] at h
      have h' := List.mem_of_mem_take h
      simp at h'

/-- Witness for the amended C1 at a prefix that does contain the
exception-route add. -/
theorem connect_tunnel_routes_precede_exception_witness :
    (Op.routeAdd (xrayToGatewayRoute cfgEx envOk.xray.resolvedIP)
      ∈ ((Connect cfgEx envOk "vless://u@h:443").ops.take 6)) ∧
    ∃ ifcName, envOk.tunNew = Except.ok ifcName ∧
      Op.routeAdd (tunnelRouteOpts cfgEx ifcName)
        ∈ ((Connect cfgEx envOk "vless://u@h:443").ops.take 6) :=
  ⟨by decide,
   connect_tunnel_routes_precede_exception cfgEx envOk "vless://u@h:443" 6
     (by decide)⟩

/-- Claim C2 (counterexample): when adding the gateway-exception route
fails, `Connect` returns an error while the engine is still running,
the TUN device is still open and the tunnel routes are still installed
— OS-visible state does remain. -/
theorem connect_error_leaves_resources_cex :
    (Connect cfgEx envFailExc "vless://u@h:443").result =
      some "add xray server route exception: eperm" ∧
    (Connect cfgEx envFailExc "vless://u@h:443").engineRunning = true ∧
    (Connect cfgEx envFailExc "vless://u@h:443").tunOpen = true ∧
    (Connect cfgEx envFailExc "vless://u@h:443").installedRoutes =
      [tunnelRouteOpts cfgEx "utun3"] := by
  decide

/-- Claim C2 (amended): when `Connect` returns an error it performs no
rollback at all: it never issues an engine close or a TUN close, and
the only route deletion it can have issued is the best-effort
pre-delete of the gateway-exception route — resources acquired before
the failing step remain in place. -/
theorem connect_no_rollback_on_error
    (cfg : ConnCfg) (env : ConnectEnv) (link : String) (err : String)
    (hres : (Connect cfg env link).result = some err) :
    Op.engineClose ∉ (Connect cfg env link).ops ∧
    Op.tunClose ∉ (Connect cfg env link).ops ∧
    ∀ r, Op.routeDelete r ∈ (Connect cfg env link).ops →
      r = xrayToGatewayRoute cfg env.xray.resolvedIP := by
  rcases createXrayProxy_cases env.xray link with ⟨msg, hx⟩ | hx
  · refine ⟨?_, ?_, ?_⟩ <;> simp [Connect, hx]
  · rcases hs : env.startErr with _ | e
    · rcases setupTunnel_cases cfg env with
        ⟨msg, tunOps, hst, hops⟩ | ⟨name, hname, hst⟩
      · rcases hops with h1 | h1 | ⟨name, hname, h1⟩ <;>
          (subst h1; refine ⟨?_, ?_, ?_⟩ <;> simp [Connect, hx, hs, hst])
      · rcases hexc : env.excRouteAddErr with _ | e
        · simp [Connect, hx, hs, hst, hexc] at hres
        · refine ⟨?_, ?_, ?_⟩ <;> simp [Connect, hx, hs, hst, hexc]
    · refine ⟨?_, ?_, ?_⟩ <;> simp [Connect, hx, hs]

/-- Witness for the amended C2 at the failing exception-route add. -/
theorem connect_no_rollback_on_error_witness :
    (Connect cfgEx envFailExc "vless://u@h:443").result =
      some "add xray server route exception: eperm" ∧
    Op.engineClose ∉ (Connect cfgEx envFailExc "vless://u@h:443").ops ∧
    Op.tunClose ∉ (Connect cfgEx envFailExc "vless://u@h:443").ops :=
  ⟨by decide,
   (connect_no_rollback_on_error cfgEx envFailExc "vless://u@h:443"
      "add xray server route exception: eperm" (by decide)).1,
   (connect_no_rollback_on_error cfgEx envFailExc "vless://u@h:443"
      "add xray server route exception: eperm" (by decide)).2.1⟩

/-- Claim C6 (confirmed): when the protocol service rejects the link at
`CreateProtocol`, `Connect` returns an error whose message contains
`"invalid config: protocol create"` and issues no engine, TUN or route
operation; when the link passes creation but fails `Parse`, the error
contains `"invalid config: parse"`, again with no operation issued. -/
theorem connect_invalid_config_error_messages
    (cfg : ConnCfg) (env : ConnectEnv) (link : String) :
    (∀ e, env.xray.createProtocolErr (trimSpace link) = some e →
      (Connect cfg env link).ops = [] ∧
      ∃ msg, (Connect cfg env link).result = some msg ∧
        containsSubstr msg "invalid config: protocol create") ∧
    (env.xray.createProtocolErr (trimSpace link) = none →
      ∀ e, env.xray.parseErr = some e →
      (Connect cfg env link).ops = [] ∧
      ∃ msg, (Connect cfg env link).result = some msg ∧
        containsSubstr msg "invalid config: parse") := by
  constructor
  · intro e he
    have hx : createXrayProxy env.xray link =
        Except.error ("invalid config: protocol create: " ++ e) := by
      simp [createXrayProxy, he]
    refine ⟨by simp [Connect, hx],
      "create xray core instance: " ++ ("invalid config: protocol create: " ++ e),
      by simp [Connect, hx], ?_⟩
    refine ⟨"create xray core instance: ".data, ": ".data ++ e.data, ?_⟩
    have hsplit : ("invalid config: protocol create: ").data =
        ("invalid config: protocol create").data ++ (": ").data := by
      decide
    simp only [String.data_append, hsplit]
    simp [List.append_assoc]
  · intro hcp e he
    have hx : createXrayProxy env.xray link =
        Except.error ("invalid config: parse: " ++ e) := by
      simp [createXrayProxy, hcp, he]
    refine ⟨by simp [Connect, hx],
      "create xray core instance: " ++ ("invalid config: parse: " ++ e),
      by simp [Connect, hx], ?_⟩
    refine ⟨"create xray core instance: ".data, ": ".data ++ e.data, ?_⟩
    have hsplit : ("invalid config: parse: ").data =
        ("invalid config: parse").data ++ (": ").data := by
      decide
    simp only [String.data_append, hsplit]
    simp [List.append_assoc]

/-- Witness for C6 at the repository test's two inputs:
`Connect("invalid_link")` with a service failing protocol creation, and
`Connect("vless://example.com")` with a service failing `Parse`. -/
theorem connect_invalid_config_error_messages_witness :
    ((Connect cfgEx envInvalidLink "invalid_link").ops = [] ∧
      ∃ msg, (Connect cfgEx envInvalidLink "invalid_link").result =
          some msg ∧
        containsSubstr msg "invalid config: protocol create") ∧
    ((Connect cfgEx envNoPort "vless://example.com").ops = [] ∧
      ∃ msg, (Connect cfgEx envNoPort "vless://example.com").result =
          some msg ∧
        containsSubstr msg "invalid config: parse") :=
  ⟨(connect_invalid_config_error_messages cfgEx envInvalidLink
      "invalid_link").1 "invalid protocol" (by decide),
   (connect_invalid_config_error_messages cfgEx envNoPort
      "vless://example.com").2 (by decide) "port empty" (by decide)⟩

/-- Bounds for a whole session: under no-overflow bounds the counters
move upward by at most the bytes the trace carries. -/
theorem runEvents_bounds (es : List IOEvent) (s : ReaderMetrics)
    (h0r : 0 ≤ s.nRead) (h0w : 0 ≤ s.nWritten)
    (hbr : s.nRead + totalRead es < 9223372036854775808)
    (hbw : s.nWritten + totalWrite es < 9223372036854775808) :
    s.nRead ≤ (runEvents s es).nRead ∧
    (runEvents s es).nRead ≤ s.nRead + totalRead es ∧
    s.nWritten ≤ (runEvents s es).nWritten ∧
    (runEvents s es).nWritten ≤ s.nWritten + totalWrite es := by
  induction es generalizing s with
  | nil =>
    simp [runEvents, totalRead, totalWrite]
  | cons e es ih =>
    have hrun : runEvents s (e :: es) = runEvents (metricsStep s e) es := rfl
    rcases e with ⟨n, err, now⟩ | ⟨n, err, now⟩
    · rcases err with _ | msg
      · have htr : totalRead (IOEvent.read n none now :: es) =
            n + totalRead es := rfl
        have htw : totalWrite (IOEvent.read n none now :: es) =
            totalWrite es := rfl
        rw [htr] at hbr
        rw [htw] at hbw
        have hw : wrap64 (s.nRead + (n : Int)) = s.nRead + n :=
          wrap64_eq_self (by omega) (by omega)
        have hstep : metricsStep s (IOEvent.read n none now) =
            { s with nRead := s.nRead + n,
                     lastRead := atomicTimeStore now } := by
          simp [metricsStep, ReaderMetrics.read, hw]
        rw [hrun, hstep]
        have ihh := ih { s with nRead := s.nRead + n,
                                lastRead := atomicTimeStore now }
          (by simp; omega) (by simpa using h0w) (by simp; omega)
          (by simpa using hbw)
        simp only at ihh
        refine ⟨by omega, by omega, by omega, by omega⟩
      · have hstep : metricsStep s (IOEvent.read n (some msg) now) = s := by
          simp [metricsStep, ReaderMetrics.read]
        have htr : totalRead (IOEvent.read n (some msg) now :: es) =
            n + totalRead es := rfl
        have htw : totalWrite (IOEvent.read n (some msg) now :: es) =
            totalWrite es := rfl
        rw [htr] at hbr
        rw [htw] at hbw
        rw [hrun, hstep]
        have ihh := ih s h0r h0w (by omega) (by omega)
        refine ⟨by omega, by omega, by omega, by omega⟩
    · rcases err with _ | msg
      · have htr : totalRead (IOEvent.write n none now :: es) =
            totalRead es := rfl
        have htw : totalWrite (IOEvent.write n none now :: es) =
            n + totalWrite es := rfl
        rw [htr] at hbr
        rw [htw] at hbw
        have hw : wrap64 (s.nWritten + (n : Int)) = s.nWritten + n :=
          wrap64_eq_self (by omega) (by omega)
        have hstep : metricsStep s (IOEvent.write n none now) =
            { s with nWritten := s.nWritten + n,
                     lastWrite := atomicTimeStore now } := by
          simp [metricsStep, ReaderMetrics.write, hw]
        rw [hrun, hstep]
        have ihh := ih { s with nWritten := s.nWritten + n,
                                lastWrite := atomicTimeStore now }
          (by simpa using h0r) (by simp; omega) (by simpa using hbr)
          (by simp; omega)
        simp only at ihh
        refine ⟨by omega, by omega, by omega, by omega⟩
      · have hstep : metricsStep s (IOEvent.write n (some msg) now) = s := by
          simp [metricsStep, ReaderMetrics.write]
        have htr : totalRead (IOEvent.write n (some msg) now :: es) =
            totalRead es := rfl
        have htw : totalWrite (IOEvent.write n (some msg) now :: es) =
            n + totalWrite es := rfl
        rw [htr] at hbr
        rw [htw] at hbw
        rw [hrun, hstep]
        have ihh := ih s h0r h0w (by omega) (by omega)
        refine ⟨by omega, by omega, by omega, by omega⟩

/-- Claim C9 (confirmed): a successful `Read`/`Write` of `n` bytes bumps
the corresponding counter by exactly `n` (absent `int64` overflow) and
records the activity timestamp; a failed call leaves the state
untouched even when `n > 0`; and over any session trace both counters
are monotonically non-decreasing. -/
theorem readerMetrics_counters_spec :
    (∀ (s : ReaderMetrics) (n : Nat) (now : GoTime),
      0 ≤ s.nRead → s.nRead + n < 9223372036854775808 →
      (s.read n none now).nRead = s.nRead + n ∧
      (s.read n none now).lastRead = atomicTimeStore now ∧
      (s.read n none now).nWritten = s.nWritten) ∧
    (∀ (s : ReaderMetrics) (n : Nat) (now : GoTime),
      0 ≤ s.nWritten → s.nWritten + n < 9223372036854775808 →
      (s.write n none now).nWritten = s.nWritten + n ∧
      (s.write n none now).lastWrite = atomicTimeStore now ∧
      (s.write n none now).nRead = s.nRead) ∧
    (∀ (s : ReaderMetrics) (n : Nat) (e : String) (now : GoTime),
      s.read n (some e) now = s ∧ s.write n (some e) now = s) ∧
    (∀ (s : ReaderMetrics) (es : List IOEvent),
      0 ≤ s.nRead → 0 ≤ s.nWritten →
      s.nRead + totalRead es < 9223372036854775808 →
      s.nWritten + totalWrite es < 9223372036854775808 →
      s.nRead ≤ (runEvents s es).nRead ∧
      s.nWritten ≤ (runEvents s es).nWritten) := by
  refine ⟨?_, ?_, ?_, ?_⟩
  · intro s n now h0 hb
    have hw : wrap64 (s.nRead + (n : Int)) = s.nRead + n :=
      wrap64_eq_self (by omega) (by omega)
    simp [ReaderMetrics.read, hw]
  · intro s n now h0 hb
    have hw : wrap64 (s.nWritten + (n : Int)) = s.nWritten + n :=
      wrap64_eq_self (by omega) (by omega)
    simp [ReaderMetrics.write, hw]
  · intro s n e now
    constructor <;> simp [ReaderMetrics.read, ReaderMetrics.write]
  · intro s es h0r h0w hbr hbw
    have h := runEvents_bounds es s h0r h0w hbr hbw
    exact ⟨h.1, h.2.2.1⟩

/-- Witness for C9 on the fresh metrics state: a 5-byte read, a 4-byte
write, a failed 7-byte read, and a short session trace. -/
theorem readerMetrics_counters_spec_witness :
    ((newReaderMetrics.read 5 none (some 111)).nRead =
        newReaderMetrics.nRead + 5 ∧
      (newReaderMetrics.read 5 none (some 111)).lastRead =
        atomicTimeStore (some 111) ∧
      (newReaderMetrics.read 5 none (some 111)).nWritten =
        newReaderMetrics.nWritten) ∧
    (newReaderMetrics.write 4 none (some 222)).nWritten =
      newReaderMetrics.nWritten + 4 ∧
    newReaderMetrics.read 7 (some "eof") (some 333) = newReaderMetrics ∧
    newReaderMetrics.nRead ≤
      (runEvents newReaderMetrics
        [IOEvent.read 3 none (some 1), IOEvent.write 4 none (some 2)]).nRead := by
  have h := readerMetrics_counters_spec
  exact ⟨h.1 newReaderMetrics 5 (some 111) (by decide) (by decide),
    (h.2.1 newReaderMetrics 4 (some 222) (by decide) (by decide)).1,
    (h.2.2.1 newReaderMetrics 7 "eof" (some 333)).1,
    (h.2.2.2 newReaderMetrics
      [IOEvent.read 3 none (some 1), IOEvent.write 4 none (some 2)]
      (by decide) (by decide) (by decide) (by decide)).1⟩

end GoxrayTun
